import Mathlib

/-!
# Verification of the bouncer invite gate

Shallow embedding of `src/main.rs` (the Matrix "bouncer" access-control
gatekeeper).  Pure data is translated structure-for-structure; the two
stateful axum handlers (`invite`, `callback`) become functions from the
application state plus explicit oracles for every external call (network
results, random tokens, the current time) to a result, a trace of the
external calls issued, and the successor state.  Timestamps and durations
are modelled in whole seconds as `Int`; `chrono::Duration::days(1)` is
86400 seconds.
-/

namespace Bouncer

/-- Join rule of a room, mirroring `ruma::space::SpaceRoomJoinRule`. -/
inductive JoinRule where
  | publicRule
  | inviteRule
  | knockRule
  | restrictedRule
  | knockRestrictedRule
  | privateRule
  | custom (s : String)
deriving DecidableEq, Repr

/-- `RoomInfo` from `main.rs`: cached metadata of one eligible room. -/
structure RoomInfo where
  room_id : String
  canonical_alias : Option String
  name : Option String
  join_rule : JoinRule
deriving DecidableEq, Repr

/-- A Matrix user id `@localpart:server_name`, exposing `server_name()`
as used by the heuristic in `callback`. -/
structure UserId where
  localpart : String
  server_name : String
deriving DecidableEq, Repr

/-- Rendering of a user id, as used in the success message. -/
def UserId.render (u : UserId) : String :=
  "@" ++ u.localpart ++ ":" ++ u.server_name

/-- The `Invite` form from `main.rs`: room, target user, turnstile proof. -/
structure Invite where
  room_id : String
  user_id : UserId
  cf_turnstile_response : String
deriving DecidableEq, Repr

/-- Decoded turnstile siteverify response (`struct Turnstile`). -/
structure Turnstile where
  success : Bool
deriving DecidableEq, Repr

/-- The `Callback` query from `main.rs`: authorization code and CSRF state. -/
structure Callback where
  code : String
  state : String
deriving DecidableEq, Repr

/-- Decoded GitHub user profile (`struct GitHubUser`); `created_at` is a
UTC timestamp in whole seconds. -/
structure GitHubUser where
  login : String
  created_at : Int
deriving DecidableEq, Repr

/-- Matrix profile returned by `get_profile` (only the display name is
used by the code). -/
structure Profile where
  displayname : Option String
deriving DecidableEq, Repr

/-- Result of one fallible HTTP fetch followed by a JSON decode: the
request itself can fail, or the decode can fail, or a value is produced. -/
inductive FetchResult (α : Type) where
  | netErr
  | decodeErr
  | ok (a : α)
deriving DecidableEq, Repr

/-- Result of the GitHub user-info fetch in `callback`: building the
reqwest client can fail before any request is sent, then the send and the
decode can fail. -/
inductive UserFetch where
  | buildErr
  | netErr
  | decodeErr
  | ok (u : GitHubUser)
deriving DecidableEq, Repr

/-- One external (collaborator) call issued by a handler, in order. -/
inductive ExtCall where
  | turnstileVerify (secret response : String)
  | exchangeCode (code : String)
  | fetchGithubUser (bearer : String)
  | getProfile (user_id : UserId)
  | inviteUser (room_id : String) (user_id : UserId)
deriving DecidableEq, Repr

/-- Is this external call a Matrix room-service call (profile fetch or
privileged invite via the ruma client)? -/
def ExtCall.isRoomService : ExtCall → Bool
  | .getProfile _ => true
  | .inviteUser _ _ => true
  | _ => false

/-- Is this external call the privileged invite itself? -/
def ExtCall.isInvite : ExtCall → Bool
  | .inviteUser _ _ => true
  | _ => false

/-- Is this external call a verification-adapter (turnstile) call? -/
def ExtCall.isVerify : ExtCall → Bool
  | .turnstileVerify _ _ => true
  | _ => false

/-- Number of privileged-invite calls in a trace. -/
def countInvites (l : List ExtCall) : Nat :=
  (l.filter ExtCall.isInvite).length

/-- Number of verification-adapter calls in a trace. -/
def countVerifies (l : List ExtCall) : Nat :=
  (l.filter ExtCall.isVerify).length

/-- Number of room-service calls in a trace. -/
def countRoomService (l : List ExtCall) : Nat :=
  (l.filter ExtCall.isRoomService).length

/-- The pending-invite (CSRF) store: token ↦ parked invite.  The Rust code
uses a `Mutex<HashMap<String, Invite>>`; we model the map as an
association list with `HashMap` lookup/insert/remove semantics. -/
abbrev CsrfStore : Type := List (String × Invite)

/-- Lookup of a token in the store (`HashMap::get`-style). -/
def csrfLookup : CsrfStore → String → Option Invite
  | [], _ => none
  | p :: t, k => if p.1 = k then some p.2 else csrfLookup t k

/-- Removal of a token from the store (`HashMap::remove`). -/
def csrfErase : CsrfStore → String → CsrfStore
  | [], _ => []
  | p :: t, k => if p.1 = k then csrfErase t k else p :: csrfErase t k

/-- Insertion of a token (`HashMap::insert`, replacing any old entry). -/
def csrfInsert (m : CsrfStore) (k : String) (v : Invite) : CsrfStore :=
  (k, v) :: csrfErase m k

/-- The room-directory snapshot: room id ↦ cached metadata. -/
abbrev RoomsMap : Type := List (String × RoomInfo)

/-- `HashMap::contains_key` on the room snapshot. -/
def roomsContains (m : RoomsMap) (k : String) : Bool :=
  List.any m (fun p => p.1 == k)

/-- `AppState` from `main.rs`, restricted to the fields the handlers read
or write (the ruma and oauth2 clients are the call oracles). -/
structure AppState where
  rooms : RoomsMap
  turnstile_site_key : String
  turnstile_secret_key : String
  csrf : CsrfStore
deriving DecidableEq

/-- Outcome of one handler invocation: an HTTP result (status code and
body on error), the ordered trace of external calls issued, and the
successor application state. -/
structure HandlerOut (α : Type) where
  result : Except (Nat × String) α
  calls : List ExtCall
  state : AppState

/-- Does the result hold a success value? -/
def resultOk {α : Type} : Except (Nat × String) α → Bool
  | .ok _ => true
  | .error _ => false

/-- The `invite` handler (`POST /invite`, `main.rs` lines 207-262).
Oracles: `turnstile` is the outcome of the siteverify call, `authUrl` and
`freshToken` are the random authorization URL and CSRF token produced by
`authorize_url(CsrfToken::new_random)`.  On success the handler returns a
redirect to `authUrl`. -/
def inviteHandler (st : AppState) (inv : Invite)
    (turnstile : FetchResult Turnstile) (authUrl freshToken : String) :
    HandlerOut String :=
  let calls := [ExtCall.turnstileVerify st.turnstile_secret_key inv.cf_turnstile_response]
  match turnstile with
  | .netErr => ⟨.error (500, "failed to verify turnstile response"), calls, st⟩
  | .decodeErr => ⟨.error (500, "failed to decode turnstile verify result"), calls, st⟩
  | .ok response =>
      if !response.success then
        ⟨.error (403, "turnstile verification failed"), calls, st⟩
      else if !(roomsContains st.rooms inv.room_id) then
        ⟨.error (400, "invalid room_id"), calls, st⟩
      else
        ⟨.ok authUrl, calls,
          { st with csrf := csrfInsert st.csrf freshToken inv }⟩

/-- One day, the age threshold of the heuristic, in seconds
(`chrono::Duration::days(1)`). -/
def oneDay : Int := 86400

/-- Continuation of the `callback` handler after the pending invite has
been taken from the store (`main.rs` lines 94-205): OAuth code exchange,
GitHub user fetch, age heuristic, profile fetch, privileged invite.
Oracles: `exchange` is the outcome of the OAuth code exchange (carrying
the access token), `userFetch` the GitHub user-info fetch, `now` the
current UTC time in seconds (`Local::now().to_utc()`), `profileFetch` the
Matrix profile fetch, `inviteRes` the privileged invite call. -/
def callbackCont (st : AppState) (q : Callback) (invite : Invite)
    (exchange : Except Unit String) (userFetch : UserFetch) (now : Int)
    (profileFetch : Except Unit Profile) (inviteRes : Except Unit Unit) :
    HandlerOut String :=
  match exchange with
      | .error _ =>
          ⟨.error (400, "failed to exchange for token"), [.exchangeCode q.code], st⟩
      | .ok token =>
          match userFetch with
          | .buildErr =>
              ⟨.error (500, "failed to build client"), [.exchangeCode q.code], st⟩
          | .netErr =>
              ⟨.error (500, "failed to get user info"),
                [.exchangeCode q.code, .fetchGithubUser token], st⟩
          | .decodeErr =>
              ⟨.error (500, "failed to decode user info"),
                [.exchangeCode q.code, .fetchGithubUser token], st⟩
          | .ok user =>
              if invite.user_id.server_name = "matrix.org" ∧
                  now - user.created_at ≤ oneDay then
                ⟨.error (403, ""),
                  [.exchangeCode q.code, .fetchGithubUser token], st⟩
              else
                match profileFetch with
                | .error _ =>
                    ⟨.error (500, "failed to get user profile"),
                      [.exchangeCode q.code, .fetchGithubUser token,
                        .getProfile invite.user_id], st⟩
                | .ok profile =>
                    match inviteRes with
                    | .error _ =>
                        ⟨.error (500, "failed to invite user"),
                          [.exchangeCode q.code, .fetchGithubUser token,
                            .getProfile invite.user_id,
                            .inviteUser invite.room_id invite.user_id], st⟩
                    | .ok _ =>
                        ⟨.ok ("successfully invited user " ++
                            profile.displayname.getD "" ++ " (" ++
                            invite.user_id.render ++ ") to room " ++
                            invite.room_id),
                          [.exchangeCode q.code, .fetchGithubUser token,
                            .getProfile invite.user_id,
                            .inviteUser invite.room_id invite.user_id], st⟩

/-- The `callback` handler (`GET /callback`, `main.rs` lines 83-205).
Under the store lock, the pending invite keyed by `state` is looked up
and removed in one step (`HashMap::remove`); an absent key is the
terminal 400 "invalid csrf token" rejection, otherwise the flow continues
with `callbackCont` on the already-shrunk store. -/
def callbackHandler (st : AppState) (q : Callback)
    (exchange : Except Unit String) (userFetch : UserFetch) (now : Int)
    (profileFetch : Except Unit Profile) (inviteRes : Except Unit Unit) :
    HandlerOut String :=
  match csrfLookup st.csrf q.state with
  | none => ⟨.error (400, "invalid csrf token"), [], st⟩
  | some invite =>
      callbackCont { st with csrf := csrfErase st.csrf q.state } q invite
        exchange userFetch now profileFetch inviteRes

/-- The `index` handler (`GET /`): renders the room snapshot and the site
key; touches no mutable state and makes no external calls. -/
def indexHandler (st : AppState) : HandlerOut (List RoomInfo × String) :=
  ⟨.ok (st.rooms.map Prod.snd, st.turnstile_site_key), [], st⟩

/-- One incoming HTTP request together with the oracle values its handler
would consume. -/
inductive Request where
  | idx
  | inv (i : Invite) (t : FetchResult Turnstile) (authUrl freshToken : String)
  | cb (q : Callback) (e : Except Unit String) (uf : UserFetch) (now : Int)
      (p : Except Unit Profile) (ir : Except Unit Unit)

/-- State transition of one request through its handler. -/
def stepRequest (st : AppState) : Request → AppState
  | .idx => (indexHandler st).state
  | .inv i t a f => (inviteHandler st i t a f).state
  | .cb q e uf now p ir => (callbackHandler st q e uf now p ir).state

/-- Run a sequence of requests from a start state. -/
def runRequests (st : AppState) (reqs : List Request) : AppState :=
  reqs.foldl stepRequest st

/-! ## Join Challenge Engine (bot process)

The Join Challenge Engine is part of this repository but its code is not
under `src/` (only the invite gate is); the definitions below are
modelled from the spec. -/

/-- Modelled from the spec: the size of the fixed challenge alphabet
(reference size 7).  The bot's source is not under `src/`. -/
def alphabetSize : Nat := 7

/-- Modelled from the spec: a stable, well-distributed hash of a user
identifier (the concrete algorithm is an implementation detail; here a
64-bit polynomial string hash).  The bot's source is not under `src/`. -/
def stableHash (s : String) : Nat :=
  s.foldl (fun h c => (h * 31 + c.toNat) % (2 ^ 64)) 5381

/-- Modelled from the spec: the challenge assignment, "a pure function
mapping a joining user's identifier to one symbol from a fixed small
alphabet (reference size 7) via a stable hash reduced modulo alphabet
size — no stored state".  The bot's source is not under `src/`. -/
def challengeSymbol (userId : String) : Fin alphabetSize :=
  ⟨stableHash userId % alphabetSize, Nat.mod_lt _ (by decide)⟩

/-- A process run (restart generation plus any in-process history); the
challenge assignment takes no input from it, which is what makes the
assignment stateless and restart-stable. -/
structure ProcessRun where
  generation : Nat
  history : List String

/-- Modelled from the spec: computing the challenge inside a given
process run — the run is ignored, since the assignment is "a pure
function ... no stored state, automatically consistent across
restarts". -/
def challengeInRun (_run : ProcessRun) (userId : String) : Fin alphabetSize :=
  challengeSymbol userId

/-- A member-joined event as supplied by the event stream: sender, room,
origination timestamp (seconds). -/
structure JoinEvent where
  sender : String
  room : String
  origin_ts : Int
deriving DecidableEq, Repr

/-- An action the Join Challenge Engine may take on a join event. -/
inductive EngineAction where
  | postChallenge (room sender : String) (symbol : Fin alphabetSize)
deriving DecidableEq, Repr

/-- Modelled from the spec: the staleness bound, 600 seconds. -/
def stalenessBound : Int := 600

/-- Modelled from the spec: handling of one member-joined event in a
protected room — "Discard without action if event origination time is
older than a staleness bound (reference: 600 s) relative to processing
time ... Otherwise post a reply-threaded message naming the user and
their required symbol."  The bot's source is not under `src/`. -/
def handleJoin (now : Int) (ev : JoinEvent) : List EngineAction :=
  if now - ev.origin_ts > stalenessBound then []
  else [.postChallenge ev.room ev.sender (challengeSymbol ev.sender)]

/-- Did the turnstile round-trip succeed with a positive verdict?  Any
network or decode error, and a decoded `success: false`, count as a
negative/errored verification result. -/
def verifySuccess : FetchResult Turnstile → Bool
  | .ok t => t.success
  | _ => false

/-! ## Sample fixtures (concrete values for witnesses) -/

/-- A sample eligible room. -/
def sampleRoom : RoomInfo :=
  ⟨"!room:example.org", some "#room:example.org", some "Room", .publicRule⟩

/-- A sample target user on the high-abuse origin. -/
def mxUser : UserId := ⟨"bot", "matrix.org"⟩

/-- A sample target user on another origin. -/
def otherUser : UserId := ⟨"alice", "example.org"⟩

/-- A sample parked invite targeting the matrix.org user. -/
def mxInvite : Invite := ⟨"!room:example.org", mxUser, "resp"⟩

/-- A sample parked invite targeting the other-origin user. -/
def otherInvite : Invite := ⟨"!room:example.org", otherUser, "resp"⟩

/-- A sample application state with one eligible room and one parked
invite under token "tok" targeting the matrix.org user. -/
def sampleStateMx : AppState :=
  ⟨[("!room:example.org", sampleRoom)], "site", "secret", [("tok", mxInvite)]⟩

/-- A sample application state with one eligible room and one parked
invite under token "tok" targeting the other-origin user. -/
def sampleStateOther : AppState :=
  ⟨[("!room:example.org", sampleRoom)], "site", "secret", [("tok", otherInvite)]⟩

/-- A sample application state whose room snapshot is empty. -/
def noRoomState : AppState := ⟨[], "site", "secret", []⟩

/-- The sample callback query presenting token "tok". -/
def sampleQuery : Callback := ⟨"authcode", "tok"⟩

/-! ## Store lemmas -/

/-- After erasing a token, looking it up finds nothing. -/
theorem csrfLookup_erase_self (m : CsrfStore) (k : String) :
    csrfLookup (csrfErase m k) k = none := by
  induction m with
  | nil => rfl
  | cons p t ih =>
      by_cases h : p.1 = k <;> simp [csrfErase, csrfLookup, h, ih]

/-- Erasing a token leaves the other tokens' bindings unchanged. -/
theorem csrfLookup_erase_ne (m : CsrfStore) (k k' : String) (h : k' ≠ k) :
    csrfLookup (csrfErase m k) k' = csrfLookup m k' := by
  have h' : k ≠ k' := Ne.symm h
  induction m with
  | nil => rfl
  | cons p t ih =>
      by_cases hp : p.1 = k
      · simp [csrfErase, csrfLookup, hp, h', ih]
      · simp [csrfErase, csrfLookup, hp, h, ih]

/-- Looking up the freshly inserted token yields its value. -/
theorem csrfLookup_insert_self (m : CsrfStore) (k : String) (v : Invite) :
    csrfLookup (csrfInsert m k v) k = some v := by
  simp [csrfInsert, csrfLookup]

/-- Insertion leaves the other tokens' bindings unchanged. -/
theorem csrfLookup_insert_ne (m : CsrfStore) (k k' : String) (v : Invite)
    (h : k' ≠ k) : csrfLookup (csrfInsert m k v) k' = csrfLookup m k' := by
  have : k ≠ k' := fun hk => h hk.symm
  simp [csrfInsert, csrfLookup, this, csrfLookup_erase_ne m k k' h]

/-- Erasing a token that is not bound is a no-op. -/
theorem csrfErase_of_lookup_none (m : CsrfStore) (k : String)
    (h : csrfLookup m k = none) : csrfErase m k = m := by
  induction m with
  | nil => rfl
  | cons p t ih =>
      by_cases hp : p.1 = k
      · simp [csrfLookup, hp] at h
      · simp [csrfLookup, hp] at h
        simp [csrfErase, hp, ih h]

/-- Inserting a fresh token grows the store by exactly one entry. -/
theorem length_csrfInsert_fresh (m : CsrfStore) (k : String) (v : Invite)
    (h : csrfLookup m k = none) :
    (csrfInsert m k v).length = m.length + 1 := by
  simp [csrfInsert, csrfErase_of_lookup_none m k h]

/-! ## Handler lemmas -/

/-- The callback continuation never writes the application state: every
branch after the store removal returns the state it was given. -/
theorem callbackCont_state (st : AppState) (q : Callback) (inv : Invite)
    (e : Except Unit String) (uf : UserFetch) (now : Int)
    (p : Except Unit Profile) (ir : Except Unit Unit) :
    (callbackCont st q inv e uf now p ir).state = st := by
  cases e with
  | error u => rfl
  | ok token =>
      cases uf with
      | buildErr => rfl
      | netErr => rfl
      | decodeErr => rfl
      | ok user =>
          simp only [callbackCont]
          split
          · rfl
          · cases p with
            | error u => rfl
            | ok profile => cases ir <;> rfl

/-- The state after a callback is the input state with the presented
token erased from the pending-invite store — whatever later external
calls return, the token is already gone and is never re-inserted. -/
theorem callbackHandler_state (st : AppState) (q : Callback)
    (e : Except Unit String) (uf : UserFetch) (now : Int)
    (p : Except Unit Profile) (ir : Except Unit Unit) :
    (callbackHandler st q e uf now p ir).state =
      { st with csrf := csrfErase st.csrf q.state } := by
  match hl : csrfLookup st.csrf q.state with
  | none =>
      simp only [callbackHandler, hl]
      have : csrfErase st.csrf q.state = st.csrf :=
        csrfErase_of_lookup_none st.csrf q.state hl
      simp [this]
  | some inv =>
      simp only [callbackHandler, hl]
      exact callbackCont_state _ q inv e uf now p ir

/-- The invite handler leaves the room snapshot, the site key and the
secret key untouched; only the csrf store can change. -/
theorem inviteHandler_rooms (st : AppState) (inv : Invite)
    (t : FetchResult Turnstile) (authUrl freshToken : String) :
    (inviteHandler st inv t authUrl freshToken).state.rooms = st.rooms := by
  cases t with
  | netErr => rfl
  | decodeErr => rfl
  | ok response =>
      simp only [inviteHandler]
      split
      · rfl
      · split <;> rfl

/-! ## Claims -/

/-- C3: pending-invite tokens are single-use.  `complete_callback`
atomically looks up and removes the entry keyed by its `state` parameter
(`HashMap::remove` under the store lock), so after any callback the
presented token is gone from the store, and a second callback presenting
the same state value fails with the terminal HTTP 400 invalid-token
rejection (body "invalid csrf token" in the code): at most one callback
can ever claim a given token. -/
theorem C3_token_single_use (st : AppState) (q : Callback)
    (e e' : Except Unit String) (uf uf' : UserFetch) (now now' : Int)
    (p p' : Except Unit Profile) (ir ir' : Except Unit Unit) :
    csrfLookup (callbackHandler st q e uf now p ir).state.csrf q.state = none ∧
    (callbackHandler (callbackHandler st q e uf now p ir).state q
        e' uf' now' p' ir').result = .error (400, "invalid csrf token") := by
  have h1 := callbackHandler_state st q e uf now p ir
  refine ⟨?_, ?_⟩
  · rw [h1]; exact csrfLookup_erase_self _ _
  · rw [h1]
    simp only [callbackHandler, csrfLookup_erase_self]

/-- C6: in `complete_callback` the pending invite is removed from the
store before any external call is made, and no failure path re-inserts
it: whatever the code-exchange, user-fetch, heuristic, profile-fetch and
invite oracles return, the output store is exactly the input store with
the token erased, and a retry with the same state value receives the 400
"invalid csrf token" rejection — even on paths where no invite was
performed (e.g. a failed code exchange issues no privileged invite, yet
the token is consumed). -/
theorem C6_removed_before_externals (st : AppState) (q : Callback)
    (inv : Invite) (h : csrfLookup st.csrf q.state = some inv)
    (e e' : Except Unit String) (uf uf' : UserFetch) (now now' : Int)
    (p p' : Except Unit Profile) (ir ir' : Except Unit Unit) :
    (callbackHandler st q e uf now p ir).state.csrf =
      csrfErase st.csrf q.state ∧
    (e = .error () →
      countInvites (callbackHandler st q e uf now p ir).calls = 0) ∧
    (callbackHandler (callbackHandler st q e uf now p ir).state q
        e' uf' now' p' ir').result = .error (400, "invalid csrf token") := by
  have h1 := callbackHandler_state st q e uf now p ir
  refine ⟨by rw [h1], ?_, ?_⟩
  · intro he
    subst he
    simp [callbackHandler, h, callbackCont, countInvites, ExtCall.isInvite]
  · rw [h1]
    simp only [callbackHandler, csrfLookup_erase_self]

/-- C6 witness: a concrete parked token, consumed by a callback whose
code exchange fails; the store is the erasure, no invite was issued, and
the retry is rejected with 400 "invalid csrf token". -/
theorem C6_witness :
    (callbackHandler sampleStateMx sampleQuery (.error ()) .buildErr 0
        (.error ()) (.error ())).state.csrf =
      csrfErase sampleStateMx.csrf "tok" ∧
    ((.error () : Except Unit String) = .error () →
      countInvites (callbackHandler sampleStateMx sampleQuery (.error ())
        .buildErr 0 (.error ()) (.error ())).calls = 0) ∧
    (callbackHandler (callbackHandler sampleStateMx sampleQuery (.error ())
        .buildErr 0 (.error ()) (.error ())).state sampleQuery (.error ())
        .buildErr 0 (.error ()) (.error ())).result =
      .error (400, "invalid csrf token") :=
  C6_removed_before_externals sampleStateMx sampleQuery mxInvite (by rfl)
    (.error ()) (.error ()) .buildErr .buildErr 0 0 (.error ()) (.error ())
    (.error ()) (.error ())

/-- C7: the room-directory snapshot is read-only after startup: no
handler (index, invite submission, callback) changes the rooms map, so
across every sequence of requests the set of eligible rooms and each
room's cached metadata are unchanged. -/
theorem C7_rooms_snapshot_immutable (st : AppState) (reqs : List Request) :
    (runRequests st reqs).rooms = st.rooms := by
  induction reqs generalizing st with
  | nil => rfl
  | cons r t ih =>
      have hstep : (stepRequest st r).rooms = st.rooms := by
        cases r with
        | idx => rfl
        | inv i tr a f => exact inviteHandler_rooms st i tr a f
        | cb q e uf now p ir => rw [stepRequest, callbackHandler_state]
      calc (runRequests st (r :: t)).rooms
          = (runRequests (stepRequest st r) t).rooms := rfl
        _ = (stepRequest st r).rooms := ih (stepRequest st r)
        _ = st.rooms := hstep

/-- C9: the challenge assignment is a pure stateless function from a
user identifier to one of the 7 alphabet symbols, a stable hash reduced
modulo the alphabet size: it reads nothing from the process run, so any
two computations — in particular computations in different runs across a
restart — yield the same symbol, which always lies in the alphabet. -/
theorem C9_challenge_stable (r₁ r₂ : ProcessRun) (userId : String) :
    challengeInRun r₁ userId = challengeInRun r₂ userId ∧
    (challengeInRun r₁ userId).val = stableHash userId % alphabetSize ∧
    (challengeInRun r₁ userId).val < alphabetSize :=
  ⟨rfl, rfl, (challengeSymbol userId).isLt⟩

/-- C10: a member-joined event whose origination time is older than the
staleness bound (600 s) relative to processing time is discarded without
action: the Join Challenge Engine posts no challenge message for it. -/
theorem C10_stale_join_discarded (now : Int) (ev : JoinEvent)
    (h : now - ev.origin_ts > stalenessBound) :
    handleJoin now ev = [] := by
  simp [handleJoin, h]

/-- C10 witness: a join event originated at time 0 processed at time
1000 (age 1000 s > 600 s) triggers no action. -/
theorem C10_witness :
    (1000 : Int) - (0 : Int) > stalenessBound ∧
    handleJoin 1000 ⟨"@alice:example.org", "!room:example.org", 0⟩ = [] :=
  ⟨by decide,
    C10_stale_join_discarded 1000
      ⟨"@alice:example.org", "!room:example.org", 0⟩ (by decide)⟩

/-- C4: a negative or errored verification-adapter result blocks the
invite flow entirely: the handler returns an error (no redirect is ever
issued), the application state — in particular the pending-invite
store — is unchanged, the call trace holds exactly the one siteverify
call (the verification is never retried and no other collaborator is
contacted), and a decoded negative verdict yields precisely the 403
"turnstile verification failed" rejection. -/
theorem C4_negative_verification_blocks (st : AppState) (inv : Invite)
    (t : FetchResult Turnstile) (authUrl freshToken : String)
    (h : verifySuccess t = false) :
    resultOk (inviteHandler st inv t authUrl freshToken).result = false ∧
    (inviteHandler st inv t authUrl freshToken).state = st ∧
    (inviteHandler st inv t authUrl freshToken).calls =
      [.turnstileVerify st.turnstile_secret_key inv.cf_turnstile_response] ∧
    (t = .ok ⟨false⟩ →
      (inviteHandler st inv t authUrl freshToken).result =
        .error (403, "turnstile verification failed")) := by
  cases t with
  | netErr => exact ⟨rfl, rfl, rfl, fun ht => nomatch ht⟩
  | decodeErr => exact ⟨rfl, rfl, rfl, fun ht => nomatch ht⟩
  | ok response =>
      obtain ⟨b⟩ := response
      simp only [verifySuccess] at h
      subst h
      exact ⟨rfl, rfl, rfl, fun _ => rfl⟩

/-- C4 witness: a decoded `success: false` verdict on a concrete state
is rejected with 403 "turnstile verification failed", changes nothing
and issues exactly the single verification call. -/
theorem C4_witness :
    verifySuccess (.ok ⟨false⟩) = false ∧
    (resultOk (inviteHandler sampleStateMx otherInvite (.ok ⟨false⟩)
        "https://auth" "t2").result = false ∧
      (inviteHandler sampleStateMx otherInvite (.ok ⟨false⟩)
        "https://auth" "t2").state = sampleStateMx ∧
      (inviteHandler sampleStateMx otherInvite (.ok ⟨false⟩)
        "https://auth" "t2").calls =
        [.turnstileVerify sampleStateMx.turnstile_secret_key
          otherInvite.cf_turnstile_response] ∧
      ((.ok ⟨false⟩ : FetchResult Turnstile) = .ok ⟨false⟩ →
        (inviteHandler sampleStateMx otherInvite (.ok ⟨false⟩)
          "https://auth" "t2").result =
          .error (403, "turnstile verification failed"))) :=
  ⟨rfl, C4_negative_verification_blocks sampleStateMx otherInvite
    (.ok ⟨false⟩) "https://auth" "t2" rfl⟩

/-- C8: a submit_invite request that passes both the verification check
and the room check follows the identity-linking policy unconditionally:
with the random token fresh (the store holds no entry for it), the
handler returns the redirect to the identity provider, inserts exactly
one pending entry for the submitted room and target user under that
token, leaves every other entry unchanged, and issues no privileged
invite itself (so it never returns a completed invite). -/
theorem C8_park_and_redirect (st : AppState) (inv : Invite)
    (authUrl freshToken : String)
    (hroom : roomsContains st.rooms inv.room_id = true)
    (hfresh : csrfLookup st.csrf freshToken = none) :
    (inviteHandler st inv (.ok ⟨true⟩) authUrl freshToken).result =
      .ok authUrl ∧
    (inviteHandler st inv (.ok ⟨true⟩) authUrl freshToken).state.csrf =
      csrfInsert st.csrf freshToken inv ∧
    csrfLookup (inviteHandler st inv (.ok ⟨true⟩) authUrl
      freshToken).state.csrf freshToken = some inv ∧
    (∀ k, k ≠ freshToken →
      csrfLookup (inviteHandler st inv (.ok ⟨true⟩) authUrl
        freshToken).state.csrf k = csrfLookup st.csrf k) ∧
    (inviteHandler st inv (.ok ⟨true⟩) authUrl
      freshToken).state.csrf.length = st.csrf.length + 1 ∧
    countInvites (inviteHandler st inv (.ok ⟨true⟩) authUrl
      freshToken).calls = 0 := by
  have hr : inviteHandler st inv (.ok ⟨true⟩) authUrl freshToken =
      ⟨.ok authUrl,
        [.turnstileVerify st.turnstile_secret_key inv.cf_turnstile_response],
        { st with csrf := csrfInsert st.csrf freshToken inv }⟩ := by
    simp [inviteHandler, hroom]
  rw [hr]
  exact ⟨rfl, rfl, csrfLookup_insert_self _ _ _,
    fun k hk => csrfLookup_insert_ne _ _ _ _ hk,
    length_csrfInsert_fresh _ _ _ hfresh, rfl⟩

/-- C8 witness: a passing request for the known sample room with fresh
token "t2" is parked and redirected; the previously parked entry under
"tok" is untouched. -/
theorem C8_witness :
    roomsContains sampleStateMx.rooms otherInvite.room_id = true ∧
    csrfLookup sampleStateMx.csrf "t2" = none ∧
    ((inviteHandler sampleStateMx otherInvite (.ok ⟨true⟩)
        "https://auth" "t2").result = .ok "https://auth" ∧
      (inviteHandler sampleStateMx otherInvite (.ok ⟨true⟩)
        "https://auth" "t2").state.csrf =
        csrfInsert sampleStateMx.csrf "t2" otherInvite ∧
      csrfLookup (inviteHandler sampleStateMx otherInvite (.ok ⟨true⟩)
        "https://auth" "t2").state.csrf "t2" = some otherInvite ∧
      (∀ k, k ≠ "t2" →
        csrfLookup (inviteHandler sampleStateMx otherInvite (.ok ⟨true⟩)
          "https://auth" "t2").state.csrf k =
          csrfLookup sampleStateMx.csrf k) ∧
      (inviteHandler sampleStateMx otherInvite (.ok ⟨true⟩)
        "https://auth" "t2").state.csrf.length =
        sampleStateMx.csrf.length + 1 ∧
      countInvites (inviteHandler sampleStateMx otherInvite (.ok ⟨true⟩)
        "https://auth" "t2").calls = 0) :=
  ⟨rfl, rfl, C8_park_and_redirect sampleStateMx otherInvite
    "https://auth" "t2" rfl rfl⟩

/-- C1 counterexample: on a state whose room snapshot is empty, a
submit_invite for the (unknown) sample room with a successful turnstile
verdict is indeed rejected with "invalid room_id", but the call trace
contains one verification-adapter call — the adapter IS invoked for an
unknown room, because the code performs the turnstile verification
(`main.rs` lines 211-244) before the room check (line 246).  This
refutes the claim that the handler rejects an unknown room before any
verification-adapter call. -/
theorem C1_counterexample :
    roomsContains noRoomState.rooms otherInvite.room_id = false ∧
    countVerifies (inviteHandler noRoomState otherInvite (.ok ⟨true⟩)
      "https://auth" "t").calls = 1 ∧
    (inviteHandler noRoomState otherInvite (.ok ⟨true⟩)
      "https://auth" "t").result = .error (400, "invalid room_id") :=
  ⟨rfl, rfl, rfl⟩

/-- C1 (amended): for every submit_invite request whose room_id is
absent from the eligible-room snapshot, the handler never succeeds (no
redirect), leaves the state — in particular the pending-invite store —
unchanged, and performs no room-service call; when the verification
adapter reports success, the rejection is 400 "invalid room_id".  The
verification-adapter call, however, precedes the room check, so it is
issued even for an unknown room. -/
theorem C1_unknown_room_rejected (st : AppState) (inv : Invite)
    (t : FetchResult Turnstile) (authUrl freshToken : String)
    (h : roomsContains st.rooms inv.room_id = false) :
    resultOk (inviteHandler st inv t authUrl freshToken).result = false ∧
    (inviteHandler st inv t authUrl freshToken).state = st ∧
    countRoomService (inviteHandler st inv t authUrl freshToken).calls = 0 ∧
    (∀ response, t = .ok response → response.success = true →
      (inviteHandler st inv t authUrl freshToken).result =
        .error (400, "invalid room_id")) := by
  cases t with
  | netErr => exact ⟨rfl, rfl, rfl, fun r ht => nomatch ht⟩
  | decodeErr => exact ⟨rfl, rfl, rfl, fun r ht => nomatch ht⟩
  | ok response =>
      obtain ⟨b⟩ := response
      cases b with
      | false =>
          refine ⟨rfl, rfl, rfl, ?_⟩
          intro r ht hs
          cases ht
          simp at hs
      | true =>
          have hres : inviteHandler st inv (.ok ⟨true⟩) authUrl freshToken =
              ⟨.error (400, "invalid room_id"),
                [.turnstileVerify st.turnstile_secret_key
                  inv.cf_turnstile_response], st⟩ := by
            simp [inviteHandler, h]
          rw [hres]
          exact ⟨rfl, rfl, rfl, fun r ht hs => rfl⟩

/-- C1 witness (for the amended claim): the concrete unknown-room
request of the counterexample is rejected with 400 "invalid room_id",
changes nothing, and contacts no room service. -/
theorem C1_witness :
    roomsContains noRoomState.rooms otherInvite.room_id = false ∧
    (resultOk (inviteHandler noRoomState otherInvite (.ok ⟨true⟩)
        "https://auth" "t").result = false ∧
      (inviteHandler noRoomState otherInvite (.ok ⟨true⟩)
        "https://auth" "t").state = noRoomState ∧
      countRoomService (inviteHandler noRoomState otherInvite (.ok ⟨true⟩)
        "https://auth" "t").calls = 0 ∧
      (∀ response, (.ok ⟨true⟩ : FetchResult Turnstile) = .ok response →
        response.success = true →
        (inviteHandler noRoomState otherInvite (.ok ⟨true⟩)
          "https://auth" "t").result = .error (400, "invalid room_id"))) :=
  ⟨rfl, C1_unknown_room_rejected noRoomState otherInvite (.ok ⟨true⟩)
    "https://auth" "t" rfl⟩

/-- A callback whose token is found proceeds as the continuation on the
shrunk store. -/
theorem callbackHandler_of_lookup (st : AppState) (q : Callback)
    (inv : Invite) (h : csrfLookup st.csrf q.state = some inv)
    (e : Except Unit String) (uf : UserFetch) (now : Int)
    (p : Except Unit Profile) (ir : Except Unit Unit) :
    callbackHandler st q e uf now p ir =
      callbackCont { st with csrf := csrfErase st.csrf q.state } q inv
        e uf now p ir := by
  simp [callbackHandler, h]

/-- Reduction: exchange and user fetch succeeded and the heuristic
fires — 403 with empty body, before any room-service call. -/
theorem callbackCont_heuristic_pos (st : AppState) (q : Callback)
    (inv : Invite) (tok : String) (user : GitHubUser) (now : Int)
    (p : Except Unit Profile) (ir : Except Unit Unit)
    (hc : inv.user_id.server_name = "matrix.org" ∧
      now - user.created_at ≤ oneDay) :
    callbackCont st q inv (.ok tok) (.ok user) now p ir =
      ⟨.error (403, ""), [.exchangeCode q.code, .fetchGithubUser tok], st⟩ := by
  simp only [callbackCont]
  rw [if_pos hc]

/-- Reduction: the heuristic does not fire and the profile fetch fails —
hard 500 before the invite call. -/
theorem callbackCont_profile_err (st : AppState) (q : Callback)
    (inv : Invite) (tok : String) (user : GitHubUser) (now : Int)
    (u : Unit) (ir : Except Unit Unit)
    (hc : ¬(inv.user_id.server_name = "matrix.org" ∧
      now - user.created_at ≤ oneDay)) :
    callbackCont st q inv (.ok tok) (.ok user) now (.error u) ir =
      ⟨.error (500, "failed to get user profile"),
        [.exchangeCode q.code, .fetchGithubUser tok,
          .getProfile inv.user_id], st⟩ := by
  simp only [callbackCont]
  rw [if_neg hc]

/-- Reduction: heuristic silent, profile fetched, invite call fails —
the collaborator error surfaces as 500 "failed to invite user". -/
theorem callbackCont_invite_err (st : AppState) (q : Callback)
    (inv : Invite) (tok : String) (user : GitHubUser) (now : Int)
    (prof : Profile) (u : Unit)
    (hc : ¬(inv.user_id.server_name = "matrix.org" ∧
      now - user.created_at ≤ oneDay)) :
    callbackCont st q inv (.ok tok) (.ok user) now (.ok prof) (.error u) =
      ⟨.error (500, "failed to invite user"),
        [.exchangeCode q.code, .fetchGithubUser tok, .getProfile inv.user_id,
          .inviteUser inv.room_id inv.user_id], st⟩ := by
  simp only [callbackCont]
  rw [if_neg hc]

/-- Reduction: heuristic silent, profile fetched, invite succeeded —
the confirmation message. -/
theorem callbackCont_ok (st : AppState) (q : Callback)
    (inv : Invite) (tok : String) (user : GitHubUser) (now : Int)
    (prof : Profile)
    (hc : ¬(inv.user_id.server_name = "matrix.org" ∧
      now - user.created_at ≤ oneDay)) :
    callbackCont st q inv (.ok tok) (.ok user) now (.ok prof) (.ok ()) =
      ⟨.ok ("successfully invited user " ++ prof.displayname.getD "" ++
          " (" ++ inv.user_id.render ++ ") to room " ++ inv.room_id),
        [.exchangeCode q.code, .fetchGithubUser tok, .getProfile inv.user_id,
          .inviteUser inv.room_id inv.user_id], st⟩ := by
  simp only [callbackCont]
  rw [if_neg hc]

/-- C2 (amended): with the token found and the code exchange and user
fetch successful, the callback rejects with 403 (empty body in the code,
the "likely abusive account" rejection) if and only if the target user's
origin is matrix.org AND the linked account's age is at most one day
(the code compares `age <= 1 day`, so age exactly one day is also
rejected); whenever either condition fails the heuristic does not
reject, and — given a successful profile fetch — the flow proceeds to
exactly one privileged invite call. -/
theorem C2_heuristic_iff (st : AppState) (q : Callback) (inv : Invite)
    (h : csrfLookup st.csrf q.state = some inv)
    (tok : String) (user : GitHubUser) (now : Int)
    (p : Except Unit Profile) (ir : Except Unit Unit) :
    ((callbackHandler st q (.ok tok) (.ok user) now p ir).result =
        .error (403, "") ↔
      (inv.user_id.server_name = "matrix.org" ∧
        now - user.created_at ≤ oneDay)) ∧
    (∀ prof, p = .ok prof →
      ¬(inv.user_id.server_name = "matrix.org" ∧
        now - user.created_at ≤ oneDay) →
      countInvites (callbackHandler st q (.ok tok) (.ok user)
        now p ir).calls = 1) := by
  rw [callbackHandler_of_lookup st q inv h (.ok tok) (.ok user) now p ir]
  by_cases hc : inv.user_id.server_name = "matrix.org" ∧
      now - user.created_at ≤ oneDay
  · rw [callbackCont_heuristic_pos _ _ _ _ _ _ _ _ hc]
    exact ⟨⟨fun _ => hc, fun _ => rfl⟩, fun prof hp hnc => absurd hc hnc⟩
  · refine ⟨?_, ?_⟩
    · cases p with
      | error u =>
          rw [callbackCont_profile_err _ _ _ _ _ _ _ _ hc]
          constructor
          · intro he; simp at he
          · intro hcc; exact absurd hcc hc
      | ok prof =>
          cases ir with
          | error u =>
              rw [callbackCont_invite_err _ _ _ _ _ _ _ _ hc]
              constructor
              · intro he; simp at he
              · intro hcc; exact absurd hcc hc
          | ok u =>
              obtain ⟨⟩ := u
              rw [callbackCont_ok _ _ _ _ _ _ _ hc]
              constructor
              · intro he; simp at he
              · intro hcc; exact absurd hcc hc
    · intro prof hp hnc
      subst hp
      cases ir with
      | error u =>
          rw [callbackCont_invite_err _ _ _ _ _ _ _ _ hc]
          rfl
      | ok u =>
          obtain ⟨⟩ := u
          rw [callbackCont_ok _ _ _ _ _ _ _ hc]
          rfl

/-- C2 counterexample: a matrix.org target whose linked GitHub account
is exactly one day old (creation time 0, callback at 86400 s) is
rejected with 403 by the code, although its age is NOT below the one-day
threshold — the code tests `age <= 1 day`, not `age < 1 day`, so the
claim's strict "below the threshold" reading fails at the boundary. -/
theorem C2_counterexample :
    ¬ ((86400 : Int) - 0 < oneDay) ∧
    (callbackHandler sampleStateMx sampleQuery (.ok "at") (.ok ⟨"gh", 0⟩)
        86400 (.ok ⟨some "Bot"⟩) (.ok ())).result = .error (403, "") ∧
    countInvites (callbackHandler sampleStateMx sampleQuery (.ok "at")
        (.ok ⟨"gh", 0⟩) 86400 (.ok ⟨some "Bot"⟩) (.ok ())).calls = 0 :=
  ⟨by decide, rfl, rfl⟩

/-- C2 witness (for the amended claim): the spec scenario — a matrix.org
target whose linked account was created 2 hours (7200 s) ago — satisfies
the heuristic and is rejected with 403 regardless of the later oracles;
the iff and the proceeds-to-invite conjunct are instantiated on the
sample state. -/
theorem C2_witness :
    ((callbackHandler sampleStateMx sampleQuery (.ok "at") (.ok ⟨"gh", 0⟩)
        7200 (.ok ⟨some "Bot"⟩) (.ok ())).result = .error (403, "") ↔
      (mxInvite.user_id.server_name = "matrix.org" ∧
        (7200 : Int) - (0 : Int) ≤ oneDay)) ∧
    (∀ prof, (.ok ⟨some "Bot"⟩ : Except Unit Profile) = .ok prof →
      ¬(mxInvite.user_id.server_name = "matrix.org" ∧
        (7200 : Int) - (0 : Int) ≤ oneDay) →
      countInvites (callbackHandler sampleStateMx sampleQuery (.ok "at")
        (.ok ⟨"gh", 0⟩) 7200 (.ok ⟨some "Bot"⟩) (.ok ())).calls = 1) :=
  C2_heuristic_iff sampleStateMx sampleQuery mxInvite rfl "at"
    ⟨"gh", 0⟩ 7200 (.ok ⟨some "Bot"⟩) (.ok ())

/-- C5: inside the shared privileged-invite tail of the callback (token
found, exchange and user fetch successful, heuristic silent): a failed
best-effort profile fetch is escalated to the hard error 500 "failed to
get user profile" and aborts the flow before the invite call (no invite
call appears in the trace, although the invite itself could have
succeeded); when the profile fetch succeeds exactly one invite call is
issued, a collaborator-level invite error surfaces as the distinct 500
"failed to invite user", and on success the confirmation is returned. -/
theorem C5_profile_fetch_escalated (st : AppState) (q : Callback)
    (inv : Invite) (h : csrfLookup st.csrf q.state = some inv)
    (tok : String) (user : GitHubUser) (now : Int)
    (hc : ¬(inv.user_id.server_name = "matrix.org" ∧
      now - user.created_at ≤ oneDay))
    (p : Except Unit Profile) (ir : Except Unit Unit) :
    (p = .error () →
      (callbackHandler st q (.ok tok) (.ok user) now p ir).result =
        .error (500, "failed to get user profile") ∧
      countInvites (callbackHandler st q (.ok tok) (.ok user)
        now p ir).calls = 0) ∧
    (∀ prof, p = .ok prof →
      countInvites (callbackHandler st q (.ok tok) (.ok user)
        now p ir).calls = 1 ∧
      (ir = .error () →
        (callbackHandler st q (.ok tok) (.ok user) now p ir).result =
          .error (500, "failed to invite user")) ∧
      (ir = .ok () →
        (callbackHandler st q (.ok tok) (.ok user) now p ir).result =
          .ok ("successfully invited user " ++ prof.displayname.getD "" ++
            " (" ++ inv.user_id.render ++ ") to room " ++ inv.room_id))) := by
  rw [callbackHandler_of_lookup st q inv h (.ok tok) (.ok user) now p ir]
  refine ⟨?_, ?_⟩
  · intro hp
    subst hp
    rw [callbackCont_profile_err _ _ _ _ _ _ _ _ hc]
    exact ⟨rfl, rfl⟩
  · intro prof hp
    subst hp
    cases ir with
    | error u =>
        obtain ⟨⟩ := u
        rw [callbackCont_invite_err _ _ _ _ _ _ _ _ hc]
        refine ⟨rfl, fun _ => rfl, fun hi => ?_⟩
        exact Except.noConfusion hi
    | ok u =>
        obtain ⟨⟩ := u
        rw [callbackCont_ok _ _ _ _ _ _ _ hc]
        refine ⟨rfl, fun hi => ?_, fun _ => rfl⟩
        exact Except.noConfusion hi

/-- C5 witness: on the other-origin sample state (heuristic silent), a
failed profile fetch yields 500 "failed to get user profile" with no
invite call issued. -/
theorem C5_witness :
    (((.error () : Except Unit Profile) = .error ()) →
      (callbackHandler sampleStateOther sampleQuery (.ok "at")
        (.ok ⟨"gh", 0⟩) 7200 (.error ()) (.ok ())).result =
        .error (500, "failed to get user profile") ∧
      countInvites (callbackHandler sampleStateOther sampleQuery (.ok "at")
        (.ok ⟨"gh", 0⟩) 7200 (.error ()) (.ok ())).calls = 0) ∧
    (∀ prof, (.error () : Except Unit Profile) = .ok prof →
      countInvites (callbackHandler sampleStateOther sampleQuery (.ok "at")
        (.ok ⟨"gh", 0⟩) 7200 (.error ()) (.ok ())).calls = 1 ∧
      ((.ok () : Except Unit Unit) = .error () →
        (callbackHandler sampleStateOther sampleQuery (.ok "at")
          (.ok ⟨"gh", 0⟩) 7200 (.error ()) (.ok ())).result =
          .error (500, "failed to invite user")) ∧
      ((.ok () : Except Unit Unit) = .ok () →
        (callbackHandler sampleStateOther sampleQuery (.ok "at")
          (.ok ⟨"gh", 0⟩) 7200 (.error ()) (.ok ())).result =
          .ok ("successfully invited user " ++ prof.displayname.getD "" ++
            " (" ++ otherInvite.user_id.render ++ ") to room " ++
            otherInvite.room_id))) :=
  C5_profile_fetch_escalated sampleStateOther sampleQuery otherInvite rfl
    "at" ⟨"gh", 0⟩ 7200 (by decide) (.error ()) (.ok ())

end Bouncer
